/-
Verification of the WLANThermo Home Assistant integration
(custom_components/wlanthermo): a shallow embedding in Lean 4 of the
device client (api.py), the poll-cycle update function (__init__.py),
the time-left forecast sensor (sensor.py), the debounced buttons
(button.py) and the bit-mask helpers (switch.py), together with
theorems settling the specification's claims about them.

Numeric idealization: Python floats (timestamps, temperatures) are
modelled as rationals (ℚ); Python unbounded ints as ℤ/ℕ.  Python
strings are modelled as `List Char` (ASCII-faithful `strip`/`lower`).
-/
import Mathlib

namespace Wlanthermo

/-! ### Python string primitives

`str.strip()` and `str.lower()` as used by `api.py` on response
bodies, embedded over `List Char` (ASCII whitespace / case). -/

/-- Whitespace characters removed by Python `str.strip()` (ASCII range). -/
def pyIsSpace (c : Char) : Bool :=
  c = ' ' || c = '\t' || c = '\n' || c = '\r' || c = '\x0b' || c = '\x0c'

/-- Python `str.strip()`: drop whitespace from both ends. -/
def pyStrip (s : List Char) : List Char :=
  ((s.dropWhile pyIsSpace).reverse.dropWhile pyIsSpace).reverse

/-- Python `str.lower()` (ASCII case folding). -/
def pyLower (s : List Char) : List Char :=
  s.map Char.toLower

/-! ### Device client (api.py)

`WLANThermoApi._request` returns a `(status, text)` pair, or
`(None, None)` when the request raises; each write helper then
evaluates `status == 200 and text and text.strip().lower() == "true"`. -/

/-- Result of `WLANThermoApi._request`: HTTP status and body text,
each `none` when the request failed. -/
structure HttpResponse where
  status : Option Nat
  text : Option String

/-- The shared write-acknowledgment test of api.py:
`status == 200 and text and text.strip().lower() == "true"`.
Python truthiness of `text` (non-`None`, non-empty) is the middle
conjunct; the result is truthy exactly when this returns `true`. -/
def writeAck (resp : HttpResponse) : Bool :=
  decide (resp.status = some 200) &&
    (match resp.text with
     | none => false
     | some t => !t.data.isEmpty && decide (pyLower (pyStrip t.data) = "true".data))

/-- `async_set_channel` (api.py line 138): POST /setchannels, then the
shared acknowledgment test on the response. -/
def async_set_channel (resp : HttpResponse) : Bool := writeAck resp

/-- `async_set_pitmaster` (api.py line 151): POST /setpitmaster. -/
def async_set_pitmaster (resp : HttpResponse) : Bool := writeAck resp

/-- `async_set_pid_profile` (api.py line 163): POST /setpid. -/
def async_set_pid_profile (resp : HttpResponse) : Bool := writeAck resp

/-- `async_set_bluetooth` (api.py line 175): POST /setbluetooth. -/
def async_set_bluetooth (resp : HttpResponse) : Bool := writeAck resp

/-- `async_set_push` (api.py line 187): POST /setpush. -/
def async_set_push (resp : HttpResponse) : Bool := writeAck resp

/-- `async_set_iot` (api.py line 203): POST /setIoT. -/
def async_set_iot (resp : HttpResponse) : Bool := writeAck resp

/-- The success condition as the spec states it: status 200 and the
body, trimmed and case-folded, equal to the literal `true`. -/
def ackSpec (resp : HttpResponse) : Prop :=
  resp.status = some 200 ∧
    ∃ t, resp.text = some t ∧ pyLower (pyStrip t.data) = "true".data

/-! ### Bit-mask helpers (switch.py lines 458-465)

Python ints are unbounded two's-complement; `~x = -x-1`, so the
helpers are embedded over ℤ with Mathlib's `Int.lor`/`Int.land`/
`Int.lnot` and integer shifts. -/

/-- `is_bit_set(mask, bit)`: `bool(mask & (1 << bit))`. -/
def is_bit_set (mask : ℤ) (bit : ℕ) : Bool :=
  decide (Int.land mask ((1:ℤ) <<< (bit:ℤ)) ≠ 0)

/-- `set_bit(mask, bit)`: `mask | (1 << bit)`. -/
def set_bit (mask : ℤ) (bit : ℕ) : ℤ :=
  Int.lor mask ((1:ℤ) <<< (bit:ℤ))

/-- `clear_bit(mask, bit)`: `mask & ~(1 << bit)`. -/
def clear_bit (mask : ℤ) (bit : ℕ) : ℤ :=
  Int.land mask (Int.lnot ((1:ℤ) <<< (bit:ℤ)))

/-! ### Poll-cycle update function (__init__.py lines 84-107)

`async_update_data` fetches /data; on failure or empty payload it
returns `None` (no snapshot).  On success it tries /settings and
replaces the `api.settings` cache only when that fetch returned a
non-empty payload and parsing succeeded; any settings failure is
swallowed.  The function never assigns the coordinator's published
snapshot — publication belongs to the (external) coordinator
framework — so the prior snapshot is threaded through unchanged.
Payload and settings types are abstract parameters; `none` models a
failed fetch or a falsy (empty) payload, and the parse function is an
arbitrary `Except`-valued parameter. -/

/-- Modelled from the spec: the snapshot type `WlanthermoData` lives in
data.py, which is not under src/; per §4.2 parsing is defensive and
"never raises past the parse boundary", so the snapshot constructor is
modelled as a total wrapper of the fetched telemetry. -/
structure WlanthermoData (α : Type) where
  raw : α

/-- `async_update_data` (__init__.py lines 84-107) as a pure transformer:
given the cycle's fetch results and the pre-cycle state
(settings cache, previously published snapshot), return the
post-cycle state and the cycle's result. -/
def async_update_data {α σJ σ : Type} (raw_data : Option α)
    (raw_settings : Option σJ) (from_json : σJ → Except String σ)
    (settings : Option σ) (snapshot : Option (WlanthermoData α)) :
    (Option σ × Option (WlanthermoData α)) × Option (WlanthermoData α) :=
  match raw_data with
  | none => ((settings, snapshot), none)
  | some d =>
      let settings2 :=
        match raw_settings with
        | none => settings
        | some sj =>
            match from_json sj with
            | Except.ok s => some s
            | Except.error _ => settings
      ((settings2, snapshot), some ⟨d⟩)

/-! ### Forecast engine (sensor.py, WlanthermoChannelTimeLeftSensor)

Timestamps and temperatures are rationals.  The history deque has
`maxlen=60`: appending to a full deque drops the oldest entry. -/

/-- `collections.deque(maxlen=n)` append: add on the right, dropping
from the left when the bound is exceeded. -/
def dequeAppend (maxlen : ℕ) (xs : List (ℚ × ℚ)) (x : ℚ × ℚ) : List (ℚ × ℚ) :=
  let ys := xs ++ [x]
  if maxlen < ys.length then ys.drop (ys.length - maxlen) else ys

/-- Python `round(x, 2)` modelled as round-half-up to 2 decimal places.
(Python uses round-half-to-even; the two agree except at exact ties,
which none of the evaluated inputs hit.) -/
def round2 (q : ℚ) : ℚ :=
  ((⌊q * 100 + 1/2⌋ : ℤ) : ℚ) / 100

/-- The in-window samples considered by `native_value` (sensor.py line
270): the history after appending the current `(now, temp)` reading,
filtered to timestamps at or after `now - window_seconds`. -/
def recentSamples (window : ℚ) (history : List (ℚ × ℚ)) (now temp : ℚ) :
    List (ℚ × ℚ) :=
  (dequeAppend 60 history (now, temp)).filter fun x => now - window ≤ x.1

/-- The time-left computation of
`WlanthermoChannelTimeLeftSensor.native_value` (sensor.py lines
260-286), from the append of the current reading onward: require at
least 2 in-window samples, take earliest/latest, report 0 when
`dt <= 0 or dtemp <= 0`, else `round(max((target - temp) /
(rate_per_sec * 60), 0), 2)`. -/
def timeLeft (window : ℚ) (history : List (ℚ × ℚ)) (now temp : ℚ)
    (target : Option ℚ) : Option ℚ :=
  let recent := recentSamples window history now temp
  if recent.length < 2 then none
  else
    match recent.head?, recent.getLast? with
    | some first, some latest =>
        let dt := latest.1 - first.1
        let dtemp := latest.2 - first.2
        if dt ≤ 0 ∨ dtemp ≤ 0 then some 0
        else
          match target with
          | none => none
          | some tgt => some (round2 (max ((tgt - temp) / (dtemp / dt * 60)) 0))
    | _, _ => none

/-- The fields of a telemetry channel that the time-left sensor reads
(`getattr(channel, "temp", None)`, `getattr(channel, "max", None)`). -/
structure ChannelData where
  number : ℕ
  temp : Option ℚ
  max : Option ℚ

/-- `WlanthermoChannelTimeLeftSensor.available` (sensor.py lines
289-313): false when the last update failed, the snapshot has no
system, the channel is missing, or the channel reads the 999.0
sentinel while the `show_inactive_unavailable` option is set. -/
def channel_available (last_update_success system_present : Bool)
    (channel : Option ChannelData) (show_inactive : Bool) : Bool :=
  if last_update_success = false then false
  else if system_present = false then false
  else
    match channel with
    | none => false
    | some ch =>
        if ch.temp = some (999:ℚ) ∧ show_inactive = true then false else true

/-- `WlanthermoChannelTimeLeftSensor.native_value` (sensor.py lines
249-286) including its effect on the history buffer: when unavailable,
channel missing, or `temp is None`, return `None` without touching the
buffer; otherwise append `(now, temp)` and run the time-left
computation.  Returns `(value, new history)`. -/
def native_value (last_update_success system_present show_inactive : Bool)
    (channel : Option ChannelData) (now window : ℚ)
    (history : List (ℚ × ℚ)) : Option ℚ × List (ℚ × ℚ) :=
  if channel_available last_update_success system_present channel show_inactive
      = false then (none, history)
  else
    match channel with
    | none => (none, history)
    | some ch =>
        match ch.temp with
        | none => (none, history)
        | some temp =>
            (timeLeft window history now temp ch.max,
             dequeAppend 60 history (now, temp))

/-! ### Debounced buttons (button.py)

`WlanthermoTelegramTestButton.async_press`,
`WlanthermoPushoverTestButton.async_press` and
`WlanthermoNewTokenButton.async_press` all start with the same guard:
`if now - self._last_press < DEBOUNCE_SECONDS: return`, then record
`self._last_press = now` and issue exactly one device write. -/

/-- `DEBOUNCE_SECONDS` (button.py line 15). -/
def DEBOUNCE_SECONDS : ℚ := 5

/-- The per-button debounce state: `self._last_press`, initialised 0.0. -/
structure DebounceState where
  last_press : ℚ

/-- The debounce guard shared by the three buttons: return the new
state and whether the underlying device write was issued. -/
def async_press (st : DebounceState) (now : ℚ) : DebounceState × Bool :=
  if now - st.last_press < DEBOUNCE_SECONDS then (st, false)
  else ({ last_press := now }, true)

/-! ### Pitmaster temperature sensor (sensor.py lines 1214-1227)

`WlanthermoPitmasterTemperatureSensor.native_value` evaluates
`if temp == 999.0 and show_inactive:` where `show_inactive` is an
undefined name in that scope (the option lookup present in other
sensors is missing here).  Python short-circuits the `and`, so the
undefined name is only reached when `temp == 999.0`, at which point a
`NameError` is raised; the embedding models that as `Except.error`. -/

/-- `WlanthermoPitmasterTemperatureSensor.native_value`: `Except.ok` is
a normal return, `Except.error` the `NameError` raised by the
reference to the undefined `show_inactive` on line 1224. -/
def pitmaster_temperature_native_value (channel : Option ChannelData) :
    Except String (Option ℚ) :=
  match channel with
  | none => Except.ok none
  | some ch =>
      match ch.temp with
      | none => Except.ok none
      | some t =>
          if t = 999 then Except.error "NameError: show_inactive is not defined"
          else Except.ok (some t)

end Wlanthermo

namespace Wlanthermo

/-- Bitwise set-difference of a natural number with itself is zero
(helper for evaluating `clear_bit` concretely). -/
lemma nat_ldiff_self (n : ℕ) : Nat.ldiff n n = 0 :=
  Nat.eq_of_testBit_eq fun k => by
    rw [Nat.testBit_ldiff]; simp

/-- `round2` of a nonnegative rational is nonnegative (helper for the
clamp-at-zero property of the forecast). -/
lemma round2_nonneg {q : ℚ} (hq : 0 ≤ q) : 0 ≤ round2 q := by
  unfold round2
  have h1 : (0:ℤ) ≤ ⌊q * 100 + 1/2⌋ := by
    rw [Int.le_floor]
    push_cast
    nlinarith
  exact div_nonneg (by exact_mod_cast h1) (by norm_num)

/-- C3: for every write endpoint helper of api.py and every response,
the helper reports success iff the status is 200 and the body, trimmed
of surrounding whitespace and compared case-insensitively, equals
"true"; any other status or body reports failure. -/
theorem write_ack_success_iff (resp : HttpResponse) :
    (async_set_channel resp = true ↔ ackSpec resp)
    ∧ (async_set_pitmaster resp = true ↔ ackSpec resp)
    ∧ (async_set_pid_profile resp = true ↔ ackSpec resp)
    ∧ (async_set_bluetooth resp = true ↔ ackSpec resp)
    ∧ (async_set_push resp = true ↔ ackSpec resp)
    ∧ (async_set_iot resp = true ↔ ackSpec resp) := by
  have key : writeAck resp = true ↔ ackSpec resp := by
    unfold writeAck ackSpec
    cases htext : resp.text with
    | none =>
        simp
    | some t =>
        simp only [Bool.and_eq_true, decide_eq_true_eq, Bool.not_eq_true']
        constructor
        · rintro ⟨hs, hne, heq⟩
          exact ⟨hs, t, rfl, heq⟩
        · rintro ⟨hs, t', ht', heq⟩
          have htt : t' = t := by
            injection ht' with h
            exact h.symm
          subst htt
          refine ⟨hs, ?_, heq⟩
          cases hd : t'.data with
          | nil =>
              rw [hd] at heq
              exact absurd heq (by decide)
          | cons c cs =>
              rfl
  exact ⟨key, key, key, key, key, key⟩

/-- C10: the integer bit-mask helpers of switch.py satisfy
`set_bit 0 3 = 8`, `clear_bit 8 3 = 0` and `is_bit_set 8 3 = true`. -/
theorem bitmask_concrete :
    set_bit 0 3 = 8 ∧ clear_bit 8 3 = 0 ∧ is_bit_set 8 3 = true := by
  refine ⟨by decide, ?_, by decide⟩
  have hsh : ((1:ℤ) <<< ((3:ℕ):ℤ)) = ((8:ℕ):ℤ) := by decide
  have hstep : clear_bit 8 3 = Int.land ((8:ℕ):ℤ) (Int.lnot ((8:ℕ):ℤ)) := by
    rw [clear_bit, hsh]; rfl
  rw [hstep]
  show ((Nat.ldiff 8 8 : ℕ) : ℤ) = 0
  rw [nat_ldiff_self]
  rfl

/-- C1: a poll cycle whose /data fetch fails or returns an empty
payload produces no snapshot (the update function returns `none`), no
failure is raised (the embedding is total and takes this branch), and
both the settings cache and the previously published snapshot are left
untouched. -/
theorem update_data_offline_no_snapshot {α σJ σ : Type}
    (raw_settings : Option σJ) (from_json : σJ → Except String σ)
    (settings : Option σ) (snapshot : Option (WlanthermoData α)) :
    async_update_data none raw_settings from_json settings snapshot
      = ((settings, snapshot), none) := rfl

/-- C2: a poll cycle with a successful /data fetch but a failed or
empty /settings fetch still yields a snapshot built from the telemetry
with the settings cache unchanged; and in every cycle with successful
/data, either the cache stays what it was or the /settings fetch
returned a payload that parsed successfully and the cache is exactly
that parse result. -/
theorem update_data_settings_failure_tolerated {α σJ σ : Type} (d : α)
    (raw_settings : Option σJ) (from_json : σJ → Except String σ)
    (settings : Option σ) (snapshot : Option (WlanthermoData α)) :
    async_update_data (some d) none from_json settings snapshot
      = ((settings, snapshot), some ⟨d⟩)
    ∧ ((async_update_data (some d) raw_settings from_json settings snapshot).1.1
          = settings
        ∨ ∃ sj s, raw_settings = some sj ∧ from_json sj = Except.ok s
            ∧ (async_update_data (some d) raw_settings from_json settings
                snapshot).1.1 = some s) := by
  constructor
  · rfl
  · cases raw_settings with
    | none => exact Or.inl rfl
    | some sj =>
        cases hfj : from_json sj with
        | ok s =>
            exact Or.inr ⟨sj, s, rfl, hfj, by simp [async_update_data, hfj]⟩
        | error e =>
            exact Or.inl (by simp [async_update_data, hfj])

/-- C5 counterexample: with `show_inactive_unavailable` set to false,
a cycle where the channel reads the 999.0 sentinel appends
`(now, 999.0)` to the forecast history buffer — so the sentinel is not
skipped under every configuration of the integration. -/
theorem sentinel_buffered_counterexample :
    (native_value true true false (some ⟨1, some 999, some 100⟩)
        0 300 []).2 = [((0:ℚ), (999:ℚ))] := by
  simp [native_value, channel_available, dequeAppend]

/-- C5 amended: when the `show_inactive_unavailable` option is true
(its default), a channel reading the 999.0 sentinel makes the sensor
unavailable, so the reading is never appended to the forecast history
buffer (and the value is `None`). -/
theorem sentinel_not_buffered_when_hiding_inactive
    (last_update_success system_present : Bool) (ch : ChannelData)
    (now window : ℚ) (history : List (ℚ × ℚ))
    (h999 : ch.temp = some 999) :
    native_value last_update_success system_present true (some ch)
      now window history = (none, history) := by
  have havail : channel_available last_update_success system_present
      (some ch) true = false := by
    unfold channel_available
    cases last_update_success <;> cases system_present <;> simp [h999]
  unfold native_value
  rw [havail]
  simp

/-- Witness for the amended C5 at a concrete sentinel reading. -/
theorem sentinel_not_buffered_witness :
    native_value true true true (some ⟨1, some 999, some 100⟩)
      5 300 [(0, 50)] = (none, [(0, 50)]) :=
  sentinel_not_buffered_when_hiding_inactive true true
    ⟨1, some 999, some 100⟩ 5 300 [(0, 50)] rfl

/-- C7: a second button press strictly less than `DEBOUNCE_SECONDS`
after a press that issued a device write is a silent no-op — the state
is unchanged, no write is issued, and the pair issues exactly one
write. -/
theorem debounce_second_press_noop (st : DebounceState) (t1 t2 : ℚ)
    (hfirst : (async_press st t1).2 = true)
    (hclose : t2 - t1 < DEBOUNCE_SECONDS) :
    async_press (async_press st t1).1 t2 = ((async_press st t1).1, false)
    ∧ ((if (async_press st t1).2 then (1:ℕ) else 0)
        + (if (async_press (async_press st t1).1 t2).2 then (1:ℕ) else 0))
      = 1 := by
  by_cases hc : t1 - st.last_press < DEBOUNCE_SECONDS
  · rw [async_press, if_pos hc] at hfirst
    exact absurd hfirst (by simp)
  · have h1 : async_press st t1 = ({ last_press := t1 }, true) := by
      rw [async_press, if_neg hc]
    have h2 : async_press ({ last_press := t1 } : DebounceState) t2
        = (({ last_press := t1 } : DebounceState), false) := by
      rw [async_press, if_pos hclose]
    rw [h1]
    exact ⟨h2, by rw [h2]; simp⟩

/-- Witness for C7: first press at t=10 from the initial state fires;
a second press at t=12 is suppressed. -/
theorem debounce_second_press_noop_witness :
    (async_press ⟨0⟩ 10).2 = true ∧ (10:ℚ) - 0 ≥ DEBOUNCE_SECONDS
    ∧ (12:ℚ) - 10 < DEBOUNCE_SECONDS
    ∧ async_press (async_press ⟨0⟩ 10).1 12
        = ((async_press ⟨0⟩ 10).1, false) := by
  have hfire : (async_press (⟨0⟩ : DebounceState) 10).2 = true := by
    unfold async_press DEBOUNCE_SECONDS
    rw [if_neg (by norm_num)]
  refine ⟨hfire, by norm_num [DEBOUNCE_SECONDS],
    by norm_num [DEBOUNCE_SECONDS], ?_⟩
  exact (debounce_second_press_noop ⟨0⟩ 10 12 hfire
    (by norm_num [DEBOUNCE_SECONDS])).1

/-- Evaluation of the forecast at the spec's worked example: in-window
samples (0, 50) and (300, 60), target 70, window 300 (shared helper
for the C4 theorems). -/
lemma timeLeft_example_eval :
    timeLeft 300 [((0:ℚ), 50)] 300 60 (some 70) = some 5 := by
  have hrs : recentSamples 300 [((0:ℚ), 50)] 300 60 = [(0, 50), (300, 60)] := by
    norm_num [recentSamples, dequeAppend, List.filter]
  rw [timeLeft, hrs]
  norm_num [round2]

/-- C4 counterexample: on samples (t=0, temp=50), (t=300, temp=60),
target 70 and window 300, the time-left computation returns 5.0
minutes, not the 300.0 the claim states. -/
theorem forecast_example_counterexample :
    timeLeft 300 [((0:ℚ), 50)] 300 60 (some 70) ≠ some 300
    ∧ timeLeft 300 [((0:ℚ), 50)] 300 60 (some 70) = some 5 := by
  have h := timeLeft_example_eval
  refine ⟨?_, h⟩
  rw [h]
  intro hcontra
  have : (5:ℚ) = 300 := by injection hcontra
  norm_num at this

/-- C4 amended: given exactly the in-window samples (t=0, temp=50) and
(t=300, temp=60), a target of 70 and window_seconds=300, the time-left
computation returns 5.0 minutes ((70-60)/((10/300)*60) = 5). -/
theorem forecast_example_amended :
    timeLeft 300 [((0:ℚ), 50)] 300 60 (some 70) = some 5 :=
  timeLeft_example_eval

/-- C6: when the earliest/latest in-window samples give elapsed time
dt ≤ 0 or temperature change (hence rate) ≤ 0 the forecast reports a
time-left of 0, and for every input the reported time-left is never
negative. -/
theorem forecast_flat_or_cooling_zero (w : ℚ) (history : List (ℚ × ℚ))
    (now temp : ℚ) (target : Option ℚ) (f l : ℚ × ℚ)
    (hf : (recentSamples w history now temp).head? = some f)
    (hl : (recentSamples w history now temp).getLast? = some l)
    (hlen : ¬ (recentSamples w history now temp).length < 2)
    (hneg : l.1 - f.1 ≤ 0 ∨ l.2 - f.2 ≤ 0) :
    timeLeft w history now temp target = some 0
    ∧ ∀ (w' : ℚ) (h' : List (ℚ × ℚ)) (now' temp' : ℚ) (t' : Option ℚ),
        0 ≤ (timeLeft w' h' now' temp' t').getD 0 := by
  constructor
  · simp only [timeLeft]
    rw [if_neg hlen, hf, hl]
    simp only []
    rw [if_pos hneg]
  · intro w' h' now' temp' t'
    simp only [timeLeft]
    split
    · simp
    · split
      · split
        · simp
        · split
          · simp
          · simp only [Option.getD_some]
            exact round2_nonneg (le_max_right _ _)
      · simp

/-- Witness for C6 at a cooling channel: samples (0, 60) then (300, 50)
— the temperature change is negative and the forecast reports 0. -/
theorem forecast_flat_or_cooling_zero_witness :
    (recentSamples 300 [((0:ℚ), 60)] 300 50).head? = some (0, 60)
    ∧ (recentSamples 300 [((0:ℚ), 60)] 300 50).getLast? = some (300, 50)
    ∧ ¬ (recentSamples 300 [((0:ℚ), 60)] 300 50).length < 2
    ∧ ((300:ℚ), (50:ℚ)).2 - ((0:ℚ), (60:ℚ)).2 ≤ 0
    ∧ timeLeft 300 [((0:ℚ), 60)] 300 50 (some 70) = some 0 := by
  have hrs : recentSamples 300 [((0:ℚ), 60)] 300 50 = [(0, 60), (300, 50)] := by
    norm_num [recentSamples, dequeAppend, List.filter]
  refine ⟨by rw [hrs]; rfl, by rw [hrs]; rfl, by rw [hrs]; norm_num,
    by norm_num, ?_⟩
  exact (forecast_flat_or_cooling_zero 300 [((0:ℚ), 60)] 300 50 (some 70)
    (0, 60) (300, 50) (by rw [hrs]; rfl) (by rw [hrs]; rfl)
    (by rw [hrs]; norm_num) (Or.inr (by norm_num))).1

/-- C8: when fewer than 2 samples of the channel history fall within
the trailing window at evaluation time, the forecast returns `none`
(unknown) — not zero and not an error. -/
theorem forecast_insufficient_samples (w : ℚ) (history : List (ℚ × ℚ))
    (now temp : ℚ) (target : Option ℚ)
    (hlen : (recentSamples w history now temp).length < 2) :
    timeLeft w history now temp target = none := by
  simp only [timeLeft]
  rw [if_pos hlen]

/-- Witness for C8: a single in-window sample yields `none`. -/
theorem forecast_insufficient_samples_witness :
    (recentSamples 300 ([] : List (ℚ × ℚ)) 0 5).length < 2
    ∧ timeLeft 300 ([] : List (ℚ × ℚ)) 0 5 (some 70) = none := by
  have hrs : recentSamples 300 ([] : List (ℚ × ℚ)) 0 5 = [(0, 5)] := by
    norm_num [recentSamples, dequeAppend, List.filter]
  exact ⟨by rw [hrs]; norm_num,
    forecast_insufficient_samples 300 [] 0 5 (some 70) (by rw [hrs]; norm_num)⟩

/-- C9: the pitmaster temperature sensor raises `NameError` (modelled
as `Except.error`) exactly when the associated channel exists and reads
the 999.0 sentinel — the comparison short-circuits for every other
temperature and the temperature is returned without error. -/
theorem pitmaster_sentinel_name_error (ch : ChannelData) :
    (ch.temp = some 999
      ∧ pitmaster_temperature_native_value (some ch)
          = Except.error "NameError: show_inactive is not defined")
    ∨ (ch.temp ≠ some 999
      ∧ pitmaster_temperature_native_value (some ch) = Except.ok ch.temp) := by
  cases htemp : ch.temp with
  | none =>
      refine Or.inr ⟨by simp [htemp], ?_⟩
      simp [pitmaster_temperature_native_value, htemp]
  | some t =>
      by_cases h999 : t = (999:ℚ)
      · subst h999
        exact Or.inl ⟨rfl, by
          simp [pitmaster_temperature_native_value, htemp]⟩
      · refine Or.inr ⟨by simp [htemp, h999], ?_⟩
        simp [pitmaster_temperature_native_value, htemp, h999]

end Wlanthermo
